import Mathlib

/-!
Shallow embedding of the VeriGreen backend claim-verification pipeline
(packages/backend/src: EntropyService.ts, VerifierService.ts,
ContractListener.ts, contracts/ContractListenerService.ts).

Modelling conventions:
* JavaScript numbers that are in fact non-negative integers are `Nat`;
  signed integer coordinates are `Int`; float health scores are `ℚ`.
* `Math.random()` is an ambient stream of draws, passed explicitly as
  `rng : Nat → Nat`; `Math.floor(Math.random() * 1000)` is `rng i % 1000`
  (an arbitrary integer in `[0, 1000)`).
* A thrown JS exception is `none` / `Except.error`; external calls
  (HTTP verifier, entropy beacon, ledger transaction) are oracles stored
  in a `VerifyEnv`, since their outcomes are decided outside this code.
* `prisma.*.create` is modelled as appending to an in-memory list
  (the database write itself is assumed to succeed).
* JS `%` with divisor `0` yields `NaN`; the model uses `Nat.mod`, whose
  divisor-0 case is never relied on below (theorems that care assume a
  positive divisor).
-/

set_option linter.unusedVariables false

namespace VeriGreen

/-! ## Data model (prisma schema + verifier.types) -/

/-- A verification-grid cell, as in the Prisma `Tile` type:
tile_id, x, y, health_score, ndvi, coordinates. -/
structure Tile where
  tile_id : Nat
  x : Int
  y : Int
  health_score : ℚ
  ndvi : ℚ
  coordinates : List ℚ
deriving DecidableEq

/-- The external verifier's response (Prisma `VerifierResponse`):
a forest grid of tiles plus opaque metadata. -/
structure VerifierResponse where
  forest_grid : List Tile
  filecoin_cid : String
  processing_time : String
  timestamp : String
deriving DecidableEq

/-- A persisted submission row (Prisma `Submission`). -/
structure Submission where
  user_address : String
  coordinates : List Int
  selectedTiles : List Nat
  tileHash : String
  valid : Bool
  transactionHash : String
  generatedRandomNumber : Nat
  verifierResponse : VerifierResponse
deriving DecidableEq

/-- A persisted claim row (Prisma `Claim`). -/
structure ClaimRow where
  forest_id : String
  user_address : String
  coordinates : List Int
deriving DecidableEq

/-- The database state touched by the pipeline: submission rows and claim
rows, both append-only via `prisma.*.create`. -/
structure DB where
  submissions : List Submission
  claims : List ClaimRow
deriving DecidableEq

/-! ## EntropyService.deriveNumbers (EntropyService.ts lines 28-37) -/

/-- Embedding of `EntropyService.deriveNumbers(generatedNumber, count)`:
for each loop index it draws `Math.floor(Math.random() * 1000)` — modelled
as `rng index % 1000`, a fresh value in `[0, 1000)` from the ambient
`Math.random` stream — and pushes `draw % generatedNumber`.  Note the
function never sees the grid size: the only divisor is `generatedNumber`,
the random number the beacon returned. -/
def deriveNumbers (rng : Nat → Nat) (generatedNumber : Nat) (count : Nat) : List Nat :=
  (List.range count).map (fun index => (rng index % 1000) % generatedNumber)

/-! ## VerifierService.checkGreennes (VerifierService.ts lines 14-27) -/

/-- The pass threshold applied to one tile: `health_score > 0.57` (the
threshold literal `0.57` is the rational `57/100`, written `mkRat` so that
concrete comparisons evaluate). -/
def tilePass (t : Tile) : Bool :=
  decide (t.health_score > mkRat 57 100)

/-- One `for` loop of `checkGreennes`, recursing over the remaining values
of `indexes` while `index` is the loop counter.  Each iteration computes
`tileIndex` (the value from `indexes`, reduced `% tiles.length` when it is
strictly greater than `tiles.length`) — but `tileIndex` is never used:
the threshold is applied to `tiles[index]`, the loop counter.  The JS
expression is `valid = valid && tiles[index].health_score > 0.57`, so when
`valid` is already `false` the `&&` short-circuits and `tiles[index]` is
not read; when `valid` is `true` and `index` is out of range,
`tiles[index]` is `undefined` and reading `.health_score` throws — the
thrown `TypeError` is the `none` outcome. -/
def checkGreennesAux (tiles : List Tile) : List Nat → Nat → Bool → Option Bool
  | [], _, valid => some valid
  | tileIndexValue :: rest, index, valid =>
    let tileIndex := if tileIndexValue > tiles.length
      then tileIndexValue % tiles.length else tileIndexValue
    if valid then
      match tiles[index]? with
      | none => none
      | some t => checkGreennesAux tiles rest (index + 1) (tilePass t)
    else
      checkGreennesAux tiles rest (index + 1) false

/-- Embedding of `VerifierService.checkGreennes(indexes, tiles)`:
`some b` is a normal return of `b`, `none` is a thrown exception. -/
def checkGreennes (indexes : List Nat) (tiles : List Tile) : Option Bool :=
  checkGreennesAux tiles indexes 0 true

/-- Modelled from the spec (§4.4 DecisionEngine), for comparison with
`checkGreennes`: for each sampled index, reduce it into range and apply
the threshold to the cell at THAT index; valid iff every sampled cell
passes.  This is the spec's stated semantics, not the source's. -/
def evaluateSpec (indexes : List Nat) (tiles : List Tile) : Bool :=
  indexes.all (fun v =>
    match tiles[v % tiles.length]? with
    | some t => tilePass t
    | none => false)

/-- Modelled from the spec (§4.4, glossary), for comparison: the
coordinates of the cells at the sampled indices — the data the spec says
the commitment hash is computed over. -/
def sampledCellCoordinates (grid : List Tile) (sample : List Nat) : List (List ℚ) :=
  sample.map (fun i => ((grid[i]?).map Tile.coordinates).getD [])

/-! ## VeriGreenService.verifyClaim (ContractListener.ts lines 83-140) -/

/-- Models `keccak256(AbiCoder.defaultAbiCoder().encode([...], data))`:
an opaque deterministic digest of the given string list.  Only its
determinism and its input-dependence matter to the claims below, so the
digest is represented by a simple deterministic encoding of the input. -/
def keccak256 (data : List String) : String :=
  String.intercalate "|" data

/-- The outcomes of the external calls one `verifyClaim` run makes, fixed
up-front because each is decided outside this code: the verifier HTTP call
(`getTiles`), the awaited random number (`getRandomNumber`), the ambient
`Math.random` stream consumed by `deriveNumbers`, and the ledger
transaction `verifyTilesInLand` (returning the transaction hash). -/
structure VerifyEnv where
  getTiles : Except String VerifierResponse
  getRandomNumber : Except String Nat
  rng : Nat → Nat
  verifyTilesInLand : Except String String

/-- The observable outcome of one `verifyClaim` run: the submission rows
after the run, whether the ledger commit was attempted, and whether the
surrounding `try/catch` caught a thrown error (which is only logged). -/
structure VerifyOutcome where
  db : List Submission
  commitAttempted : Bool
  caughtError : Bool
deriving DecidableEq

/-- Embedding of `VeriGreenService.verifyClaim`: fetch the grid, await a
random number (requested with `maxValue = forest_grid.length`), derive 7
indexes, run `checkGreennes`, and if valid compute
`tileHash = keccak256(encode([c1.toString(), .., c4.toString()]))` and
send the ledger transaction; finally `prisma.submission.create` appends
one row.  Any thrown step lands in the `catch`, which only logs: the
remaining steps — including the database write — are skipped. -/
def verifyClaim (env : VerifyEnv) (owner forestId : String)
    (c1 c2 c3 c4 : Int) (db : List Submission) : VerifyOutcome :=
  match env.getTiles with
  | .error _ => ⟨db, false, true⟩
  | .ok verifierResponse =>
    match env.getRandomNumber with
    | .error _ => ⟨db, false, true⟩
    | .ok randomNumber =>
      let indexes := deriveNumbers env.rng randomNumber 7
      match checkGreennes indexes verifierResponse.forest_grid with
      | none => ⟨db, false, true⟩
      | some valid =>
        if valid then
          match env.verifyTilesInLand with
          | .error _ => ⟨db, true, true⟩
          | .ok txHash =>
            ⟨db ++ [⟨owner, [c1, c2, c3, c4], indexes,
              keccak256 [toString c1, toString c2, toString c3, toString c4],
              valid, txHash, randomNumber, verifierResponse⟩], true, false⟩
        else
          ⟨db ++ [⟨owner, [c1, c2, c3, c4], indexes, "", valid, "",
            randomNumber, verifierResponse⟩], false, false⟩

/-- Embedding of the `listenLandClaimed` handler registered by
`startListeningLandClaim`: each delivered `LandClaimed` event runs
`verifyClaim` and also `prisma.claim.create`, unconditionally. -/
def handleLandClaimed (env : VerifyEnv) (owner forestId : String)
    (c1 c2 c3 c4 : Int) (db : DB) : DB :=
  { submissions := (verifyClaim env owner forestId c1 c2 c3 c4 db.submissions).db,
    claims := db.claims ++ [⟨forestId, owner, [c1, c2, c3, c4]⟩] }

/-! ## EntropyService pending requests (EntropyService.ts lines 11-26, 39-45) -/

/-- The mutable state of `EntropyService` relevant to request/response
correlation: `numberHashes` is the `Map` populated with
`set(userRandomNumber, -1)` (nonces modelled by `Nat`); `pendingResolvers`
are the promise resolvers registered (in order) by
`startListenersAndGetNumber` via `listenRandomNumberGenerated`; `resolved`
records every promise resolution `(request id, value)` that has
happened. -/
structure EntropyState where
  numberHashes : List Nat
  pendingResolvers : List Nat
  resolved : List (Nat × Nat)
deriving DecidableEq

/-- Embedding of one `getRandomNumber` call up to its suspension point:
the fresh nonce is inserted into `numberHashes` (with value `-1`, never
read again) and `startListenersAndGetNumber` registers a listener whose
callback resolves this call's promise.  The nonce is passed to the
on-chain request but NOT to the listener: the registered callback fires
on any `RandomNumberGenerated` event. -/
def getRandomNumberPending (nonce requestId : Nat) (s : EntropyState) : EntropyState :=
  { numberHashes := s.numberHashes ++ [nonce],
    pendingResolvers := s.pendingResolvers ++ [requestId],
    resolved := s.resolved }

/-- Embedding of a `RandomNumberGenerated(sequenceNumber, value)` event
arriving: every listener registered so far fires (ethers keeps all of
them attached), so every pending promise resolves with this event's
value.  No `numberHashes` entry and no listener is removed. -/
def onRandomNumberGenerated (value : Nat) (s : EntropyState) : EntropyState :=
  { s with resolved := s.resolved ++ s.pendingResolvers.map (fun rid => (rid, value)) }

/-- The possible fates of one awaited `startListenersAndGetNumber`
promise.  The spec's `RandomnessTimeout` would be a `failed` outcome; the
source's executor calls `resolve` only from the event callback and never
calls `reject`, and registers no timer. -/
inductive RequestOutcome where
  | pending : RequestOutcome
  | resolvedWith : Nat → RequestOutcome
  | failed : String → RequestOutcome
deriving DecidableEq

/-- Things that can happen while a `startListenersAndGetNumber` promise is
awaited: time passes (`tick`), or a `RandomNumberGenerated` event with a
sequence number and value arrives. -/
inductive EntropyEvent where
  | tick : EntropyEvent
  | randomNumberGenerated : Nat → Nat → EntropyEvent
deriving DecidableEq

/-- Transition of the awaited promise: the only registered callback is the
event listener, so an event resolves a pending promise and nothing else
changes anything — in particular `tick` has no transition because the
source sets no timeout. -/
def promiseStep (st : RequestOutcome) (e : EntropyEvent) : RequestOutcome :=
  match st, e with
  | .pending, .randomNumberGenerated _ v => .resolvedWith v
  | st, _ => st

/-! ## ContractListenerService reconnect (ContractListenerService.ts lines 39-123) -/

/-- Connection status of the WebSocket event source.  `failed` models the
`ContractError('Max reconnection attempts reached', 'WS_MAX_RECONNECT_ERROR')`
throw: a fatal error is raised and no further reconnect is scheduled. -/
inductive ConnStatus where
  | connected : ConnStatus
  | reconnecting : ConnStatus
  | failed : ConnStatus
deriving DecidableEq

/-- The reconnect-relevant fields of `ContractListenerService`. -/
structure ListenerState where
  reconnectAttempts : Nat
  status : ConnStatus
deriving DecidableEq

/-- `MAX_RECONNECT_ATTEMPTS = 5`. -/
def MAX_RECONNECT_ATTEMPTS : Nat := 5

/-- `RECONNECT_DELAY = 5000` milliseconds. -/
def RECONNECT_DELAY : Nat := 5000

/-- Embedding of `handleWebSocketError`, invoked on a transport error,
close, or a failed reconnect attempt.  Returns the new state together
with `some delay` when a reconnect was scheduled (`setTimeout(...,
RECONNECT_DELAY)`) and `none` when the attempt budget is exhausted and
the fatal `ContractError` is thrown instead. -/
def handleWebSocketError (s : ListenerState) : ListenerState × Option Nat :=
  if s.reconnectAttempts < MAX_RECONNECT_ATTEMPTS then
    (⟨s.reconnectAttempts + 1, ConnStatus.reconnecting⟩, some RECONNECT_DELAY)
  else
    (⟨s.reconnectAttempts, ConnStatus.failed⟩, none)

/-- Embedding of a successful re-`initializeWebSocket`: the connection is
re-established and `reconnectAttempts` is reset to `0`. -/
def reconnectSuccess (s : ListenerState) : ListenerState :=
  ⟨0, ConnStatus.connected⟩

/-- The listener state after `n` consecutive failure notifications
(`handleWebSocketError` calls) starting from a freshly connected
service. -/
def errState : Nat → ListenerState
  | 0 => ⟨0, ConnStatus.connected⟩
  | n + 1 => (handleWebSocketError (errState n)).1

/-- How many reconnect attempts were scheduled during `n` consecutive
failure notifications from a freshly connected service. -/
def retriesScheduled : Nat → Nat
  | 0 => 0
  | n + 1 => retriesScheduled n + (if (handleWebSocketError (errState n)).2.isSome then 1 else 0)

/-! ## Concrete fixtures for counterexamples and witnesses -/

/-- A passing tile (health score `0.9 > 0.57`) at position `j`, with a
distinguishing coordinate list. -/
def goodTile (j : Nat) : Tile :=
  ⟨j, 0, 0, mkRat 9 10, mkRat 1 2, [(j : ℚ)]⟩

/-- A failing tile (health score `0.3 ≤ 0.57`). -/
def badTile : Tile :=
  ⟨0, 0, 0, mkRat 3 10, mkRat 1 2, [0]⟩

/-- A 7-cell grid whose tiles all pass the threshold. -/
def goodGrid : List Tile :=
  (List.range 7).map goodTile

/-- A 7-cell grid whose first tile fails the threshold. -/
def gridBadFirst : List Tile :=
  badTile :: (List.range 6).map (fun j => goodTile (j + 1))

/-- A verifier response carrying the all-passing grid. -/
def vrGood : VerifierResponse :=
  ⟨goodGrid, "cid", "1s", "t0"⟩

/-- A verifier response whose grid has one failing tile. -/
def vrBadFirst : VerifierResponse :=
  ⟨gridBadFirst, "cid", "1s", "t1"⟩

/-- A run where every external call succeeds and `Math.random` always
draws `0`. -/
def envOkCommit : VerifyEnv :=
  ⟨.ok vrGood, .ok 7, fun _ => 0, .ok "0xABC"⟩

/-- The same run with a different `Math.random` stream (always draws
`1`), hence a different sample. -/
def envOkCommitAlt : VerifyEnv :=
  ⟨.ok vrGood, .ok 7, fun _ => 1, .ok "0xABC"⟩

/-- A run whose ledger transaction `verifyTilesInLand` throws. -/
def envCommitFails : VerifyEnv :=
  ⟨.ok vrGood, .ok 7, fun _ => 0, .error "tx reverted"⟩

/-- A run whose verifier returns the grid with a failing tile. -/
def envBadGrid : VerifyEnv :=
  ⟨.ok vrBadFirst, .ok 7, fun _ => 0, .ok "0xABC"⟩

/-- The outcome of a fully successful valid run on an empty database. -/
def runA : VerifyOutcome :=
  verifyClaim envOkCommit "owner" "forest" 1 2 3 4 []

/-- The same claim processed with the other `Math.random` stream. -/
def runB : VerifyOutcome :=
  verifyClaim envOkCommitAlt "owner" "forest" 1 2 3 4 []

/-- The outcome of a valid-verdict run whose ledger commit throws. -/
def runCommitFails : VerifyOutcome :=
  verifyClaim envCommitFails "owner" "forest" 1 2 3 4 []

/-- The database after the same `LandClaimed` event is delivered twice
(at-least-once delivery): once processed with `envOkCommit`, once with
`envBadGrid` (the external verifier answers a second time, now with a
degraded grid). -/
def dbAfterTwoDeliveries : DB :=
  handleLandClaimed envBadGrid "owner" "forest" 1 2 3 4
    (handleLandClaimed envOkCommit "owner" "forest" 1 2 3 4 ⟨[], []⟩)

/-! ## Helper lemmas -/

/-- Once `valid` is `false`, the loop completes without reading any tile
and returns `false` (the JS `&&` short-circuits every later iteration). -/
lemma checkGreennesAux_false (tiles : List Tile) (l : List Nat) (i : Nat) :
    checkGreennesAux tiles l i false = some false := by
  induction l generalizing i with
  | nil => rfl
  | cons v rest ih => simpa [checkGreennesAux] using ih (i + 1)

/-- The loop's behaviour depends on `indexes` only through its length. -/
lemma checkGreennesAux_length_congr (tiles : List Tile) (l l₂ : List Nat) (i : Nat)
    (valid : Bool) (h : l.length = l₂.length) :
    checkGreennesAux tiles l i valid = checkGreennesAux tiles l₂ i valid := by
  induction l generalizing l₂ i valid with
  | nil =>
    cases l₂ with
    | nil => rfl
    | cons _ _ => simp at h
  | cons v rest ih =>
    cases l₂ with
    | nil => simp at h
    | cons w rest₂ =>
      simp only [List.length_cons, Nat.add_right_cancel_iff] at h
      cases valid with
      | false =>
        simp only [checkGreennesAux]
        exact ih rest₂ (i + 1) false h
      | true =>
        simp only [checkGreennesAux, if_true]
        cases htl : tiles[i]? with
        | none => rfl
        | some t => exact ih rest₂ (i + 1) (tilePass t) h

/-- Characterization of the thrown outcome: starting at loop counter `i`
(with `i` still in range) and `valid = true`, the loop throws iff the
index list is long enough to step past the end of `tiles` AND every tile
from position `i` on passes the threshold (otherwise `valid` turns
`false` first and short-circuiting prevents the out-of-range read). -/
lemma checkGreennesAux_none_iff (tiles : List Tile) (l : List Nat) :
    ∀ i : Nat, i ≤ tiles.length →
      (checkGreennesAux tiles l i true = none ↔
        tiles.length < i + l.length ∧ (tiles.drop i).all tilePass = true) := by
  induction l with
  | nil =>
    intro i hi
    constructor
    · intro h; exact absurd h (by simp [checkGreennesAux])
    · rintro ⟨h1, -⟩
      simp only [List.length_nil, Nat.add_zero] at h1
      omega
  | cons v rest ih =>
    intro i hi
    cases htl : tiles[i]? with
    | none =>
      have hlen : tiles.length ≤ i := List.getElem?_eq_none_iff.mp htl
      have hdrop : tiles.drop i = [] := List.drop_eq_nil_of_le hlen
      simp only [checkGreennesAux, if_true, htl]
      simp [hdrop, List.length_cons]
      omega
    | some t =>
      obtain ⟨hlt, heq⟩ := List.getElem?_eq_some.mp htl
      have hdrop : tiles.drop i = t :: tiles.drop (i + 1) := by
        rw [List.drop_eq_getElem_cons hlt, heq]
      simp only [checkGreennesAux, if_true, htl]
      cases hp : tilePass t with
      | false =>
        rw [checkGreennesAux_false]
        simp [hdrop, hp]
      | true =>
        rw [ih (i + 1) hlt]
        simp only [List.length_cons]
        constructor
        · rintro ⟨h1, h2⟩
          refine ⟨by omega, ?_⟩
          rw [hdrop]
          simp only [List.all_cons, hp, Bool.true_and]
          exact h2
        · rintro ⟨h1, h2⟩
          rw [hdrop] at h2
          simp only [List.all_cons, hp, Bool.true_and] at h2
          exact ⟨by omega, h2⟩

/-- The reconnect-attempt counter after `n` consecutive failure
notifications equals `min n MAX_RECONNECT_ATTEMPTS`. -/
lemma errState_reconnectAttempts (n : Nat) :
    (errState n).reconnectAttempts = min n MAX_RECONNECT_ATTEMPTS := by
  induction n with
  | zero => rfl
  | succ n ih =>
    by_cases h : (errState n).reconnectAttempts < MAX_RECONNECT_ATTEMPTS
    · have hs : errState (n + 1)
          = ⟨(errState n).reconnectAttempts + 1, ConnStatus.reconnecting⟩ := by
        simp [errState, handleWebSocketError, if_pos h]
      rw [hs]
      simp only [MAX_RECONNECT_ATTEMPTS] at ih h ⊢
      omega
    · have hs : errState (n + 1)
          = ⟨(errState n).reconnectAttempts, ConnStatus.failed⟩ := by
        simp [errState, handleWebSocketError, if_neg h]
      rw [hs]
      simp only [MAX_RECONNECT_ATTEMPTS] at ih h ⊢
      omega

/-- Status after `n` consecutive failure notifications: fresh at `0`,
reconnecting through the five scheduled attempts, `failed` from the 6th
notification on. -/
lemma errState_status (n : Nat) :
    (errState n).status =
      (if n = 0 then ConnStatus.connected
       else if n ≤ MAX_RECONNECT_ATTEMPTS then ConnStatus.reconnecting
       else ConnStatus.failed) := by
  induction n with
  | zero => rfl
  | succ n ih =>
    have ha := errState_reconnectAttempts n
    by_cases h : (errState n).reconnectAttempts < MAX_RECONNECT_ATTEMPTS
    · have hs : errState (n + 1)
          = ⟨(errState n).reconnectAttempts + 1, ConnStatus.reconnecting⟩ := by
        simp [errState, handleWebSocketError, if_pos h]
      rw [hs]
      rw [ha] at h
      simp only [MAX_RECONNECT_ATTEMPTS] at h ⊢
      have h1 : n + 1 ≤ 5 := by omega
      simp [h1]
    · have hs : errState (n + 1)
          = ⟨(errState n).reconnectAttempts, ConnStatus.failed⟩ := by
        simp [errState, handleWebSocketError, if_neg h]
      rw [hs]
      rw [ha] at h
      simp only [MAX_RECONNECT_ATTEMPTS] at h ⊢
      have h1 : ¬ (n + 1 ≤ 5) := by omega
      simp [h1]

/-- Exactly `min n MAX_RECONNECT_ATTEMPTS` reconnect attempts are
scheduled during `n` consecutive failure notifications. -/
lemma retriesScheduled_eq (n : Nat) :
    retriesScheduled n = min n MAX_RECONNECT_ATTEMPTS := by
  induction n with
  | zero => rfl
  | succ n ih =>
    have ha := errState_reconnectAttempts n
    by_cases h : (errState n).reconnectAttempts < MAX_RECONNECT_ATTEMPTS
    · have hs : retriesScheduled (n + 1) = retriesScheduled n + 1 := by
        simp [retriesScheduled, handleWebSocketError, if_pos h]
      rw [hs]
      rw [ha] at h
      simp only [MAX_RECONNECT_ATTEMPTS] at ih h ⊢
      omega
    · have hs : retriesScheduled (n + 1) = retriesScheduled n := by
        simp [retriesScheduled, handleWebSocketError, if_neg h]
      rw [hs]
      rw [ha] at h
      simp only [MAX_RECONNECT_ATTEMPTS] at ih h ⊢
      omega

/-! ## Additional fixtures for the claim theorems -/

/-- The submission row the fully successful run `runA` persists. -/
def subA : Submission :=
  ⟨"owner", [1, 2, 3, 4], List.replicate 7 0, keccak256 ["1", "2", "3", "4"],
    true, "0xABC", 7, vrGood⟩

/-- Entropy state after two concurrent `getRandomNumber` calls (nonces
`10` and `11`, request ids `0` and `1`) followed by one
`RandomNumberGenerated` event carrying the value `42`. -/
def entropyTwoRequestsThenEvent : EntropyState :=
  onRandomNumberGenerated 42
    (getRandomNumberPending 11 1 (getRandomNumberPending 10 0 ⟨[], [], []⟩))

/-! ## Claim theorems -/

/-- C1: the claim says `select(s, g, n)` is deterministic — identical
inputs yield identical output sequences.  The source's `deriveNumbers`
draws from `Math.random()`, so with the identical inputs seed `10`,
count `1`, two runs whose ambient `Math.random` streams draw `0` and `1`
produce different samples: the published seed does not determine the
sample. -/
theorem deriveNumbers_not_deterministic :
    deriveNumbers (fun _ => 0) 10 1 ≠ deriveNumbers (fun _ => 1) 10 1 := by
  decide

/-- C2: the claim says the verdict thresholds the cell at each (reduced)
sampled index.  On sample `[2]` over a grid whose cell `2` fails the
threshold (score `0.3`) while cell `0` passes (`0.9`), the code returns
`valid = true` — it scores `tiles[0]`, the loop counter — whereas the
claimed semantics (`evaluateSpec`, the spec's reduced-index rule)
rejects.  The reduced `tileIndex` is computed in the source but never
used. -/
theorem checkGreennes_scores_loop_counter_not_sampled_index :
    checkGreennes [2] [goodTile 0, goodTile 1, badTile] = some true ∧
    evaluateSpec [2] [goodTile 0, goodTile 1, badTile] = false := by
  decide

/-- C3 counterexample: two valid runs of the same claim that audit
different cells (samples all-`0` vs all-`1`, whose cells carry different
coordinates) commit the SAME hash: the commitment is not computed over
the sampled cells' coordinates and cannot identify which cells were
audited. -/
theorem tileHash_ignores_sample :
    runA.db.map Submission.tileHash = runB.db.map Submission.tileHash ∧
    runA.db.map Submission.selectedTiles = [List.replicate 7 0] ∧
    runB.db.map Submission.selectedTiles = [List.replicate 7 1] ∧
    sampledCellCoordinates goodGrid (List.replicate 7 0) ≠
      sampledCellCoordinates goodGrid (List.replicate 7 1) := by
  decide

/-- C3 amended: for every run that persists a new valid submission, the
committed hash is the deterministic digest of the CLAIM's four bounding
coordinates (stringified, in order) — independent of the sample and of
the grid. -/
theorem tileHash_eq_claim_coordinates_hash
    (env : VerifyEnv) (owner forestId : String) (c1 c2 c3 c4 : Int)
    (db : List Submission) (sub : Submission)
    (hmem : sub ∈ (verifyClaim env owner forestId c1 c2 c3 c4 db).db)
    (hnew : sub ∉ db) (hv : sub.valid = true) :
    sub.tileHash = keccak256 [toString c1, toString c2, toString c3, toString c4] := by
  cases ht : env.getTiles with
  | error e =>
    simp only [verifyClaim, ht] at hmem
    exact absurd hmem hnew
  | ok vr =>
    cases hr : env.getRandomNumber with
    | error e =>
      simp only [verifyClaim, ht, hr] at hmem
      exact absurd hmem hnew
    | ok rn =>
      cases hc : checkGreennes (deriveNumbers env.rng rn 7) vr.forest_grid with
      | none =>
        simp only [verifyClaim, ht, hr, hc] at hmem
        exact absurd hmem hnew
      | some valid =>
        cases valid with
        | false =>
          simp only [verifyClaim, ht, hr, hc, Bool.false_eq_true, if_false,
            List.mem_append, List.mem_singleton] at hmem
          rcases hmem with h | h
          · exact absurd h hnew
          · rw [h] at hv
            simp at hv
        | true =>
          cases hcm : env.verifyTilesInLand with
          | error e =>
            simp only [verifyClaim, ht, hr, hc, if_true, hcm] at hmem
            exact absurd hmem hnew
          | ok tx =>
            simp only [verifyClaim, ht, hr, hc, if_true, hcm,
              List.mem_append, List.mem_singleton] at hmem
            rcases hmem with h | h
            · exact absurd h hnew
            · rw [h]

/-- C3 witness: the concrete valid run `runA` commits exactly the digest
of its claim coordinates `1, 2, 3, 4`. -/
theorem tileHash_eq_claim_coordinates_hash_witness :
    subA.tileHash
      = keccak256 [toString (1 : Int), toString (2 : Int), toString (3 : Int),
          toString (4 : Int)] :=
  tileHash_eq_claim_coordinates_hash envOkCommit "owner" "forest" 1 2 3 4 [] subA
    (by decide) (by decide) (by decide)

/-- C4 counterexample: with beacon value (seed) `1000` and a grid of 10
cells, a `Math.random` draw of `999` puts the index `999` in the sample:
indices are reduced modulo the SEED, not the grid size, so they do not
lie in `[0, g)` for every seed. -/
theorem deriveNumbers_index_exceeds_grid :
    999 ∈ deriveNumbers (fun _ => 999) 1000 7 ∧ ¬ (999 < 10) := by
  decide

/-- C4 amended: every derived index lies in `[0, s)` for the beacon value
`s` (when `s > 0`), hence within `[0, g)` exactly when the beacon value
satisfies `0 < s ≤ g`. -/
theorem deriveNumbers_lt_seed (rng : Nat → Nat) (s count g : Nat)
    (hs : 0 < s) (hsg : s ≤ g) :
    (deriveNumbers rng s count).all (fun x => decide (x < g)) = true := by
  simp only [deriveNumbers, List.all_eq_true, List.mem_map, List.mem_range]
  rintro x ⟨i, -, rfl⟩
  exact decide_eq_true (lt_of_lt_of_le (Nat.mod_lt _ hs) hsg)

/-- C4 witness: with beacon value `5 ≤ 10` every derived index is below
the grid size `10`. -/
theorem deriveNumbers_lt_seed_witness :
    (deriveNumbers (fun _ => 3) 5 7).all (fun x => decide (x < 10)) = true :=
  deriveNumbers_lt_seed (fun _ => 3) 5 7 10 (by decide) (by decide)

/-- C5 counterexample: a run whose verdict is valid (the ledger commit is
attempted) but whose `verifyTilesInLand` transaction throws persists NO
submission record at all — the `catch` only logs — so a record is not
persisted "regardless of the verdict". -/
theorem verifyClaim_commit_failure_skips_record :
    runCommitFails.commitAttempted = true ∧ runCommitFails.db = [] := by
  decide

/-- C5 amended: in every run that reaches a verdict, the ledger commit is
attempted iff the verdict is valid, and — provided the commit, when
attempted, succeeds — exactly one submission record is appended carrying
that verdict, the claimant and the parcel coordinates (in particular an
invalid verdict attempts no commit and is still recorded). -/
theorem verifyClaim_commit_iff_valid_and_persists
    (env : VerifyEnv) (owner forestId : String) (c1 c2 c3 c4 : Int)
    (db : List Submission) (vr : VerifierResponse) (rn : Nat) (v : Bool) (tx : String)
    (ht : env.getTiles = .ok vr) (hr : env.getRandomNumber = .ok rn)
    (hc : checkGreennes (deriveNumbers env.rng rn 7) vr.forest_grid = some v)
    (hcommit : v = true → env.verifyTilesInLand = .ok tx) :
    (verifyClaim env owner forestId c1 c2 c3 c4 db).commitAttempted = v ∧
    (verifyClaim env owner forestId c1 c2 c3 c4 db).db.map Submission.valid
      = db.map Submission.valid ++ [v] ∧
    (verifyClaim env owner forestId c1 c2 c3 c4 db).db.map Submission.user_address
      = db.map Submission.user_address ++ [owner] ∧
    (verifyClaim env owner forestId c1 c2 c3 c4 db).db.map Submission.coordinates
      = db.map Submission.coordinates ++ [[c1, c2, c3, c4]] := by
  cases v with
  | true =>
    have hx := hcommit rfl
    simp [verifyClaim, ht, hr, hc, hx]
  | false =>
    simp [verifyClaim, ht, hr, hc]

/-- C5 witness: the fully successful valid run appends exactly one record
with `valid = true` for claimant `owner`, parcel `[1, 2, 3, 4]`, and its
commit was attempted. -/
theorem verifyClaim_commit_iff_valid_and_persists_witness :
    (verifyClaim envOkCommit "owner" "forest" 1 2 3 4 []).commitAttempted = true ∧
    (verifyClaim envOkCommit "owner" "forest" 1 2 3 4 []).db.map Submission.valid
      = List.map Submission.valid [] ++ [true] ∧
    (verifyClaim envOkCommit "owner" "forest" 1 2 3 4 []).db.map Submission.user_address
      = List.map Submission.user_address [] ++ ["owner"] ∧
    (verifyClaim envOkCommit "owner" "forest" 1 2 3 4 []).db.map Submission.coordinates
      = List.map Submission.coordinates [] ++ [[1, 2, 3, 4]] :=
  verifyClaim_commit_iff_valid_and_persists envOkCommit "owner" "forest" 1 2 3 4 []
    vrGood 7 true "0xABC" rfl rfl (by decide) (fun _ => rfl)

/-- C6: delivering the same `LandClaimed` event twice (at-least-once
delivery) creates TWO submission rows for the same (claimant, parcel)
pair, here with conflicting verdicts `true` and `false` (the second
delivery re-queried the external verifier, which returned a degraded
grid): nothing deduplicates by claim, so the decision trail is not
recorded exactly once. -/
theorem verifyClaim_double_delivery_conflicting_records :
    dbAfterTwoDeliveries.submissions.map Submission.valid = [true, false] ∧
    dbAfterTwoDeliveries.submissions.map Submission.user_address = ["owner", "owner"] ∧
    dbAfterTwoDeliveries.submissions.map Submission.coordinates
      = [[1, 2, 3, 4], [1, 2, 3, 4]] := by
  decide

/-- C7: with two concurrent pending requests, one single
`RandomNumberGenerated` event resolves BOTH promises (every registered
listener fires with the event's value — correlation by the request nonce
never happens), and neither the `numberHashes` entries nor the pending
listeners are removed. -/
theorem entropy_event_cross_resolves_pending :
    entropyTwoRequestsThenEvent.resolved = [(0, 42), (1, 42)] ∧
    entropyTwoRequestsThenEvent.numberHashes = [10, 11] ∧
    entropyTwoRequestsThenEvent.pendingResolvers = [0, 1] := by
  decide

/-- C8: the awaited promise of `startListenersAndGetNumber` has no
timeout transition: however long a trace of timer ticks passes with no
resolving event, the request is still `pending` — it never fails with
`RandomnessTimeout`, never purges its entry, and the pipeline never
persists a failure record. -/
theorem promise_never_times_out (tr : List EntropyEvent)
    (h : ∀ e ∈ tr, e = EntropyEvent.tick) :
    tr.foldl promiseStep RequestOutcome.pending = RequestOutcome.pending := by
  induction tr with
  | nil => rfl
  | cons e rest ih =>
    have he : e = EntropyEvent.tick := h e (List.mem_cons_self _ _)
    subst he
    simp only [List.foldl_cons]
    exact ih (fun e2 he2 => h e2 (List.mem_cons_of_mem _ he2))

/-- C8 witness: after two event-free ticks the request is still pending. -/
theorem promise_never_times_out_witness :
    List.foldl promiseStep RequestOutcome.pending [EntropyEvent.tick, EntropyEvent.tick]
      = RequestOutcome.pending :=
  promise_never_times_out [EntropyEvent.tick, EntropyEvent.tick] (by decide)

/-- C9: under consecutive transport failures the listener schedules at
most `MAX_RECONNECT_ATTEMPTS = 5` reconnect attempts (each delayed by
`RECONNECT_DELAY`), and it is in the terminal `failed` state — the fatal
`ContractError` raised, no further retry scheduled — exactly when the
failure notifications number 6 or more (the initial drop plus 5 failed
reconnect attempts). -/
theorem reconnect_bounded_then_failed (n : Nat) :
    retriesScheduled n ≤ MAX_RECONNECT_ATTEMPTS ∧
    ((errState n).status = ConnStatus.failed ↔ MAX_RECONNECT_ATTEMPTS + 1 ≤ n) := by
  constructor
  · rw [retriesScheduled_eq]
    exact Nat.min_le_right _ _
  · rw [errState_status]
    by_cases h0 : n = 0
    · subst h0
      simp [MAX_RECONNECT_ATTEMPTS]
    · by_cases h5 : n ≤ MAX_RECONNECT_ATTEMPTS
      · simp only [h0, if_false, h5, if_true]
        simp only [MAX_RECONNECT_ATTEMPTS] at h5 ⊢
        constructor
        · intro hcon
          exact absurd hcon (by simp)
        · intro h6
          omega
      · simp only [h0, if_false, h5, if_true]
        simp only [MAX_RECONNECT_ATTEMPTS] at h5 ⊢
        constructor
        · intro _
          omega
        · intro _
          trivial

/-- C9 witness: after 7 consecutive failure notifications, at most 5
retries were scheduled and the listener is in the terminal failed
state. -/
theorem reconnect_bounded_then_failed_witness :
    retriesScheduled 7 ≤ MAX_RECONNECT_ATTEMPTS ∧
    ((errState 7).status = ConnStatus.failed ↔ MAX_RECONNECT_ATTEMPTS + 1 ≤ 7) :=
  reconnect_bounded_then_failed 7

/-- C10 counterexample: on `indexes = [0, 0, 0]` against a single failing
tile (`3 > 1` positions), the call completes normally with `some false`:
the first iteration sets `valid := false`, every later iteration
short-circuits, and the claimed out-of-range access never happens even
though `indexes` is longer than `tiles`. -/
theorem checkGreennes_early_fail_no_oob :
    checkGreennes [0, 0, 0] [badTile] = some false ∧
    ([badTile] : List Tile).length < ([0, 0, 0] : List Nat).length := by
  decide

/-- C10 amended: `checkGreennes` reads tiles only at the loop-counter
positions, so its result depends on `indexes` only through the length
(first conjunct), and it reaches the out-of-range access (the thrown
`none`) iff `indexes` is longer than `tiles` AND every tile passes the
threshold — an early failing tile short-circuits all later reads. -/
theorem checkGreennes_reads_only_loop_positions
    (indexes indexes2 : List Nat) (tiles : List Tile)
    (h : indexes.length = indexes2.length) :
    checkGreennes indexes tiles = checkGreennes indexes2 tiles ∧
    (checkGreennes indexes tiles = none ↔
      tiles.length < indexes.length ∧ tiles.all tilePass = true) := by
  refine ⟨checkGreennesAux_length_congr tiles indexes indexes2 0 true h, ?_⟩
  have hx := checkGreennesAux_none_iff tiles indexes 0 (Nat.zero_le _)
  simpa using hx

/-- C10 witness: samples `[5]` and `[9]` agree on a one-tile grid, and
that call throws iff the grid is shorter than the sample and all tiles
pass (here the single tile fails, so no throw). -/
theorem checkGreennes_reads_only_loop_positions_witness :
    checkGreennes [5] [badTile] = checkGreennes [9] [badTile] ∧
    (checkGreennes [5] [badTile] = none ↔
      ([badTile] : List Tile).length < ([5] : List Nat).length ∧
        ([badTile] : List Tile).all tilePass = true) :=
  checkGreennes_reads_only_loop_positions [5] [9] [badTile] (by decide)

end VeriGreen
